import Mathlib

/-!
Shallow embedding of `src/main.py`, a single-page Streamlit app
("Pharma AI Brand Manager").  The app reads a three-sheet spreadsheet
through pandas, filters a criteria matrix, looks up differentiators and
tactics, and calls an external text-generation service whose reply is
parsed with a greedy brace regex followed by `json.loads`.

Modelling conventions:
* a pandas `DataFrame` is a list of column names plus a list of rows;
  a cell is `Option String`, with `none` standing for pandas `NaN`
  (the representation of an empty / missing spreadsheet cell);
* `pd.read_excel` and the network transport are external effects and are
  passed in as `Except String _` values (exception message or result);
* `st.error` / `st.info` notices are returned explicitly as error kinds
  so that theorems can talk about what was reported;
* Python exceptions that the source catches are the `Except.error` /
  error-kind branches; totality of the Lean functions models the fact
  that the corresponding Python code cannot raise uncaught.
-/

/-- A spreadsheet cell as pandas sees it: `none` is `NaN`. -/
abbrev Cell := Option String

/-- One row of a sheet, cells in column order. -/
abbrev Row := List Cell

/-- A pandas data frame: header labels plus rows. -/
structure DataFrame where
  columns : List String
  rows : List Row
deriving DecidableEq, Repr

/-- Index of the first column with the given label (pandas label lookup;
`pd.read_excel` mangles duplicate headers, so labels are unique in practice). -/
def colIdx : List String → String → Option Nat
  | [], _ => none
  | c :: cs, t => if c = t then some 0 else (colIdx cs t).map (· + 1)

/-- The cell of `row` in the column labelled `c`, flattening a missing
column or a short row to `none` (pandas pads short rows with `NaN`). -/
def getCell (df : DataFrame) (c : String) (row : Row) : Cell :=
  match colIdx df.columns c with
  | some i => (row.get? i).join
  | none => none

/-- `Series.astype(str)` on one cell: `str(nan) = "nan"`. -/
def cellAsStr : Cell → String
  | some s => s
  | none => "nan"

/-- Python `str.lower()` (ASCII part; the markers and headers the claims
touch are ASCII). -/
def pyLower (s : String) : String := String.mk (s.data.map Char.toLower)

/-- `.astype(str).str.lower()` on one cell. -/
def cellStrLower (c : Cell) : String := pyLower (cellAsStr c)

/-- Errors reported via `st.error` by `filter_strategic_imperatives`. -/
inductive FilterErr where
  /-- "The Excel file's columns do not match the expected names for filtering." -/
  | SchemaMismatch
  /-- "Error filtering strategic imperatives: ..." (caught exception, e.g. the
  `"Strategic Imperative"` column being absent). -/
  | FilterException
deriving DecidableEq, Repr

/-- Row predicate of the pandas mask in `filter_strategic_imperatives`:
the three named cells, as lowered strings, equal `"x"`. -/
def rowMarked (df : DataFrame) (role lifecycle journey : String) (r : Row) : Bool :=
  cellStrLower (getCell df role r) == "x" &&
  cellStrLower (getCell df lifecycle r) == "x" &&
  cellStrLower (getCell df journey r) == "x"

/-- Embedding of `filter_strategic_imperatives(df, role, lifecycle, journey)`
(src/main.py lines 253-266).  Returns the reported error (if any) together
with the returned list. -/
def filter_strategic_imperatives (df : DataFrame) (role lifecycle journey : String) :
    Option FilterErr × List String :=
  if role ∈ df.columns ∧ lifecycle ∈ df.columns ∧ journey ∈ df.columns then
    match colIdx df.columns "Strategic Imperative" with
    | some i =>
      let filtered := df.rows.filter (rowMarked df role lifecycle journey)
      (none, filtered.filterMap (fun r => (r.get? i).join))
    | none => (some .FilterException, [])
  else (some .SchemaMismatch, [])

/-- Result of `load_criteria` (src/main.py lines 212-227): either the
all-`None` quadruple after an `st.error` (upon which the caller `st.stop`s),
or the role/lifecycle/journey axes plus the matrix. -/
inductive LoadResult where
  | loadError
  | loaded (role_options lifecycle_options journey_options : List String)
      (matrix_df : DataFrame)
deriving DecidableEq, Repr

/-- Embedding of `load_criteria(filename)`.  The pandas read of the first
sheet restricted to columns A:M is the external input `readResult`
(`.error` models a raised exception, caught by the `except` branch). -/
def load_criteria (readResult : Except String DataFrame) : LoadResult :=
  match readResult with
  | .error _ => .loadError
  | .ok df =>
    if df.columns.length < 13 then .loadError
    else
      .loaded
        (((df.columns.drop 1).take 3).filter (fun opt => pyLower opt ≠ "caregiver"))
        ((df.columns.drop 5).take 4)
        ((df.columns.drop 9).take 4)
        df

/-- Placeholder heading the role dropdown. -/
def role_placeholder : String := "Audience"

/-- Placeholder heading the lifecycle dropdown. -/
def lifecycle_placeholder : String := "Product Life Cycle"

/-- Placeholder heading the journey dropdown. -/
def journey_placeholder : String := "Customer Journey Focus"

/-- Placeholder heading the disease-state dropdown. -/
def disease_placeholder : String := "Disease State"

/-- Step 1 → Step 2 gating (src/main.py lines 318-322): the strategic-option
filter runs only when all four selections are non-placeholder, and is invoked
with role, lifecycle and journey only — the disease selection is not passed. -/
def step2_strategic_options (matrix_df : DataFrame)
    (role_selected lifecycle_selected journey_selected disease_selected : String) :
    Option (Option FilterErr × List String) :=
  if role_selected ≠ role_placeholder ∧ lifecycle_selected ≠ lifecycle_placeholder ∧
      journey_selected ≠ journey_placeholder ∧ disease_selected ≠ disease_placeholder then
    some (filter_strategic_imperatives matrix_df role_selected lifecycle_selected journey_selected)
  else none

/-! ### JSON values and `json.loads`

`generate_ai_output` feeds the brace-delimited span of the service reply to
`json.loads`.  We embed Python JSON values (numeric literals kept as their
raw text, since no claim depends on numeric semantics) and a fuel-based
recursive-descent reading of the `json` module's strict grammar:
whitespace is space/tab/newline/carriage-return, strings reject raw control
characters and support the standard escapes, numbers follow
`-?(0|[1-9][0-9]*)(\.[0-9]+)?([eE][+-]?[0-9]+)?`, and the constants
`NaN`, `Infinity`, `-Infinity` are accepted.  Objects are Python dicts:
duplicate keys keep the first position and the last value. -/

/-- The character `{` (kept as a named constant so that source text stays
brace-free). -/
def braceOpen : Char := Char.ofNat 123

/-- The character `}`. -/
def braceClose : Char := Char.ofNat 125

/-- A parsed JSON value as `json.loads` produces it. -/
inductive JVal where
  | str (s : String)
  | num (raw : String)
  | bool (b : Bool)
  | null
  | arr (elems : List JVal)
  | obj (fields : List (String × JVal))

/-- JSON whitespace (the `json` module skips exactly these). -/
def jsonWs (c : Char) : Bool :=
  c = ' ' || c = '\t' || c = '\n' || c = '\r'

/-- Drop leading JSON whitespace. -/
def skipWs : List Char → List Char
  | [] => []
  | c :: cs => if jsonWs c then skipWs cs else c :: cs

/-- Value of a hexadecimal digit. -/
def hexVal (c : Char) : Option Nat :=
  if '0' ≤ c ∧ c ≤ '9' then some (c.toNat - 48)
  else if 'a' ≤ c ∧ c ≤ 'f' then some (c.toNat - 87)
  else if 'A' ≤ c ∧ c ≤ 'F' then some (c.toNat - 55)
  else none

/-- Parse the body of a JSON string after the opening quote; returns the
decoded characters and the input after the closing quote.  Raw control
characters are rejected (the `json` module's default strict mode); a
`\uXXXX` escape becomes the scalar with that code (surrogate-pair joining
is not modelled — no claim exercises it). -/
def parseStringBody : List Char → Option (List Char × List Char)
  | [] => none
  | c :: cs =>
    if c = '"' then some ([], cs)
    else if c = '\\' then
      match cs with
      | [] => none
      | e :: cs2 =>
        if e = '"' ∨ e = '\\' ∨ e = '/' then
          (parseStringBody cs2).map (fun p => (e :: p.1, p.2))
        else if e = 'b' then (parseStringBody cs2).map (fun p => ('\x08' :: p.1, p.2))
        else if e = 'f' then (parseStringBody cs2).map (fun p => ('\x0C' :: p.1, p.2))
        else if e = 'n' then (parseStringBody cs2).map (fun p => ('\n' :: p.1, p.2))
        else if e = 'r' then (parseStringBody cs2).map (fun p => ('\r' :: p.1, p.2))
        else if e = 't' then (parseStringBody cs2).map (fun p => ('\t' :: p.1, p.2))
        else if e = 'u' then
          match cs2 with
          | h1 :: h2 :: h3 :: h4 :: cs3 =>
            match hexVal h1, hexVal h2, hexVal h3, hexVal h4 with
            | some a, some b, some c1, some d =>
              (parseStringBody cs3).map
                (fun p => (Char.ofNat (((a * 16 + b) * 16 + c1) * 16 + d) :: p.1, p.2))
            | _, _, _, _ => none
          | _ => none
        else none
    else if c.toNat < 32 then none
    else (parseStringBody cs).map (fun p => (c :: p.1, p.2))

/-- Drop a literal character sequence, failing if it is not there. -/
def dropLit : List Char → List Char → Option (List Char)
  | [], cs => some cs
  | l :: ls, c :: cs => if c = l then dropLit ls cs else none
  | _ :: _, [] => none

/-- Parse the fractional part of a JSON number (possibly empty). -/
def parseFrac (cs : List Char) : Option (List Char × List Char) :=
  match cs with
  | '.' :: rest =>
    match rest.span Char.isDigit with
    | ([], _) => none
    | (ds, r) => some ('.' :: ds, r)
  | _ => some ([], cs)

/-- Parse the exponent part of a JSON number (possibly empty). -/
def parseExp (cs : List Char) : Option (List Char × List Char) :=
  match cs with
  | c :: rest =>
    if c = 'e' ∨ c = 'E' then
      match rest with
      | s :: rest2 =>
        if s = '+' ∨ s = '-' then
          match rest2.span Char.isDigit with
          | ([], _) => none
          | (ds, r) => some (c :: s :: ds, r)
        else
          match rest.span Char.isDigit with
          | ([], _) => none
          | (ds, r) => some (c :: ds, r)
      | [] => none
    else some ([], cs)
  | [] => some ([], cs)

/-- Parse a JSON number literal, returning its raw text and the rest. -/
def parseNumber (cs : List Char) : Option (List Char × List Char) :=
  let signed := match cs with
    | c :: rest => if c = '-' then (['-'], rest) else (([] : List Char), cs)
    | [] => ([], [])
  match signed.2 with
  | [] => none
  | c :: rest =>
    if c = '0' then
      match parseFrac rest with
      | none => none
      | some (fr, cs2) =>
        match parseExp cs2 with
        | none => none
        | some (ex, cs3) => some (signed.1 ++ [c] ++ fr ++ ex, cs3)
    else if c.isDigit then
      match (c :: rest).span Char.isDigit with
      | (ds, cs1) =>
        match parseFrac cs1 with
        | none => none
        | some (fr, cs2) =>
          match parseExp cs2 with
          | none => none
          | some (ex, cs3) => some (signed.1 ++ ds ++ fr ++ ex, cs3)
    else none

/-- Replace the value at key `k` (keeping its position), or append. -/
def updateField : List (String × JVal) → String → JVal → List (String × JVal)
  | [], k, v => [(k, v)]
  | (k0, v0) :: fs, k, v =>
    if k0 = k then (k0, v) :: fs else (k0, v0) :: updateField fs k v

/-- Python-dict construction from parsed member pairs: duplicate keys keep
their first position and their last value. -/
def dedupFields (fs : List (String × JVal)) : List (String × JVal) :=
  fs.foldl (fun acc kv => updateField acc kv.1 kv.2) []

mutual

/-- Parse one JSON value (fuel-indexed so recursion is structural). -/
def parseJValue : Nat → List Char → Option (JVal × List Char)
  | 0, _ => none
  | Nat.succ fuel, cs =>
    match skipWs cs with
    | [] => none
    | c :: rest =>
      if c = '"' then
        match parseStringBody rest with
        | some (s, r) => some (.str (String.mk s), r)
        | none => none
      else if c = braceOpen then
        match skipWs rest with
        | [] => none
        | d :: r1 =>
          if d = braceClose then some (.obj [], r1)
          else
            match parseMembers fuel (d :: r1) with
            | some (fs, r) => some (.obj (dedupFields fs), r)
            | none => none
      else if c = '[' then
        match skipWs rest with
        | [] => none
        | d :: r1 =>
          if d = ']' then some (.arr [], r1)
          else
            match parseElems fuel (d :: r1) with
            | some (vs, r) => some (.arr vs, r)
            | none => none
      else if c = 't' then (dropLit "rue".data rest).map (fun r => (.bool true, r))
      else if c = 'f' then (dropLit "alse".data rest).map (fun r => (.bool false, r))
      else if c = 'n' then (dropLit "ull".data rest).map (fun r => (.null, r))
      else if c = 'N' then (dropLit "aN".data rest).map (fun r => (.num "NaN", r))
      else if c = 'I' then (dropLit "nfinity".data rest).map (fun r => (.num "Infinity", r))
      else
        match parseNumber (c :: rest) with
        | some (raw, r) => some (.num (String.mk raw), r)
        | none =>
          if c = '-' then (dropLit "Infinity".data rest).map (fun r => (.num "-Infinity", r))
          else none

/-- Parse one or more `"key": value` members and the closing brace. -/
def parseMembers : Nat → List Char → Option (List (String × JVal) × List Char)
  | 0, _ => none
  | Nat.succ fuel, cs =>
    match skipWs cs with
    | '"' :: rest =>
      match parseStringBody rest with
      | some (k, r1) =>
        match skipWs r1 with
        | ':' :: r2 =>
          match parseJValue fuel r2 with
          | some (v, r3) =>
            match skipWs r3 with
            | [] => none
            | d :: r4 =>
              if d = ',' then
                match parseMembers fuel r4 with
                | some (fs, r) => some ((String.mk k, v) :: fs, r)
                | none => none
              else if d = braceClose then some ([(String.mk k, v)], r4)
              else none
          | none => none
        | _ => none
      | none => none
    | _ => none

/-- Parse one or more array elements and the closing bracket. -/
def parseElems : Nat → List Char → Option (List JVal × List Char)
  | 0, _ => none
  | Nat.succ fuel, cs =>
    match parseJValue fuel cs with
    | some (v, r1) =>
      match skipWs r1 with
      | [] => none
      | d :: r2 =>
        if d = ',' then
          match parseElems fuel r2 with
          | some (vs, r) => some (v :: vs, r)
          | none => none
        else if d = ']' then some ([v], r2)
        else none
    | none => none

end

/-- Embedding of `json.loads`: parse one value, then require only
whitespace to remain.  The fuel `s.length + 1` never runs out, because
every fuel decrement consumes at least one input character. -/
def json_loads (s : String) : Option JVal :=
  match parseJValue (s.length + 1) s.data with
  | some (v, rest) => if skipWs rest = [] then some v else none
  | none => none

/-! ### The greedy brace regex and `generate_ai_output` -/

/-- The longest non-empty span of `cs` ending at a closing brace: the
greedy tail match of `.*\}` under `re.DOTALL`. -/
def takeToLastClose : List Char → Option (List Char)
  | [] => none
  | c :: cs =>
    match takeToLastClose cs with
    | some tl => some (c :: tl)
    | none => if c = braceClose then some [c] else none

/-- Embedding of `re.search(r'\{.*\}', content, re.DOTALL)`: try each start
position left to right; at an opening brace, match greedily to the last
closing brace of the remainder. -/
def searchBraceSpan : List Char → Option (List Char)
  | [] => none
  | c :: cs =>
    if c = braceOpen then
      match takeToLastClose cs with
      | some tl => some (c :: tl)
      | none => searchBraceSpan cs
    else searchBraceSpan cs

/-- Python `str.strip()` whitespace (ASCII part). -/
def pyWs (c : Char) : Bool :=
  c = ' ' || c = '\t' || c = '\n' || c = '\r' || c = '\x0B' || c = '\x0C'

/-- Python `str.strip()`. -/
def pyStrip (s : String) : String :=
  String.mk (((s.data.dropWhile pyWs).reverse.dropWhile pyWs).reverse)

/-- Errors reported via `st.error` by `generate_ai_output`. -/
inductive GenErr where
  /-- "No valid JSON object found in the response." -/
  | NoJsonFound
  /-- "Error decoding the JSON object. Please try again." -/
  | JsonDecodeError
  /-- "Error generating tactical recommendation: ..." (transport or service
  exception caught by the outer `except`). -/
  | RequestFailure
deriving DecidableEq, Repr

/-- The all-sentinel generation record
`{"description": "N/A", "cost": "N/A", "timeframe": "N/A"}`. -/
def allSentinel : JVal :=
  .obj [("description", .str "N/A"), ("cost", .str "N/A"), ("timeframe", .str "N/A")]

/-- `", ".join(selected_differentiators) if selected_differentiators else "None"`. -/
def differentiators_text (selected_differentiators : List String) : String :=
  if selected_differentiators.isEmpty then "None"
  else String.intercalate ", " selected_differentiators

/-- The prompt f-string of `generate_ai_output`. -/
def gen_prompt (tactic_text dtext : String) : String :=
  "\nYou are an expert pharmaceutical marketing strategist.\nGiven the following tactic: \""
    ++ tactic_text
    ++ "\"\nand considering the selected product differentiators: \""
    ++ dtext
    ++ "\",\nexplain in 2-3 sentences how implementing this tactic will deliver on the strategic imperative,\ndetailing how its unique aspects align with and leverage these differentiators.\nAlso, provide an estimated cost range in USD and an estimated timeframe in months for implementation.\nReturn ONLY a JSON object with exactly the following keys: \"description\", \"cost\", \"timeframe\". Do not include any additional text.\n    "

/-- Embedding of `generate_ai_output(tactic_text, selected_differentiators)`
(src/main.py lines 271-307).  The service call is the external input
`response` (`.error` models any transport or service exception, caught by
the outer `except`).  Returns the reported error (if any) together with the
returned record. -/
def generate_ai_output (tactic_text : String) (selected_differentiators : List String)
    (response : Except String String) : Option GenErr × JVal :=
  let _prompt := gen_prompt tactic_text (differentiators_text selected_differentiators)
  match response with
  | .error _ => (some .RequestFailure, allSentinel)
  | .ok raw =>
    let content := pyStrip raw
    match searchBraceSpan content.data with
    | none => (some .NoJsonFound, allSentinel)
    | some json_str =>
      match json_loads (String.mk json_str) with
      | some output => (none, output)
      | none => (some .JsonDecodeError, allSentinel)

/-! ### The generation pass (`gen_plan_pressed`, src/main.py lines 354-378) -/

/-- The columns Sheet 3 must provide. -/
def required_cols : List String :=
  ["Strategic Imperative", "Patient & Caregiver", "HCP Engagement"]

/-- `sheet3[sheet3["Strategic Imperative"] == imperative]`: the rows whose
identity cell equals the imperative by exact string equality (a `NaN` cell
compares unequal to every string). -/
def matchingRows (sheet3 : DataFrame) (imperative : String) : List Row :=
  sheet3.rows.filter (fun r => getCell sheet3 "Strategic Imperative" r == some imperative)

/-- What the loop body renders for one selected imperative. -/
inductive RenderItem where
  /-- `st.info(f"No tactic found for strategic imperative: ...")`. -/
  | noTacticInfo (imperative : String)
  /-- The subheader/description/cost/timeframe block for one tactic. -/
  | recommendation (imperative : String) (tactic : Cell) (ai : Option GenErr × JVal)

/-- One iteration of the loop over `selected_strategics`: resolve the tactic
row, branch on the role, and (only when a row was found) call the generator.
The second component logs the imperatives for which a generation call was
made. -/
def process_imperative (sheet3 : DataFrame) (role_selected : String)
    (selected_differentiators : List String) (respond : String → Except String String)
    (imperative : String) : RenderItem × List String :=
  match matchingRows sheet3 imperative with
  | [] => (.noTacticInfo imperative, [])
  | r :: _ =>
    let tactic :=
      if role_selected = "HCP" then getCell sheet3 "HCP Engagement" r
      else getCell sheet3 "Patient & Caregiver" r
    (.recommendation imperative tactic
        (generate_ai_output (cellAsStr tactic) selected_differentiators (respond imperative)),
      [imperative])

/-- Embedding of the `gen_plan_pressed` handler: read Sheet 3 (external
input; `.error` is a caught read exception followed by `st.stop`), check the
required columns (`st.stop` on failure), then process every selected
imperative in order.  `respond` is the per-imperative reply of the external
service.  Returns `none` when rendering halts, otherwise the rendered items
and the log of generation calls. -/
def gen_plan_pressed (sheet3read : Except String DataFrame) (role_selected : String)
    (selected_strategics selected_differentiators : List String)
    (respond : String → Except String String) :
    Option (List RenderItem × List String) :=
  match sheet3read with
  | .error _ => none
  | .ok sheet3 =>
    if required_cols.all (fun c => sheet3.columns.contains c) then
      let steps := selected_strategics.map
        (process_imperative sheet3 role_selected selected_differentiators respond)
      some (steps.map Prod.fst, (steps.map Prod.snd).flatten)
    else none

/-! ### `@st.cache_data` memoization (src/main.py line 212) -/

/-- Lookup in the per-process cache. -/
def cacheLookup {α : Type} : List (String × α) → String → Option α
  | [], _ => none
  | (k, v) :: rest, fn => if k = fn then some v else cacheLookup rest fn

/-- The documented semantics of the `@st.cache_data` decorator: a
per-process cache keyed by the argument; a hit returns the cached value
without re-running the function, a miss runs it and stores the result.
The third component records whether the underlying function ran. -/
def cache_data {α : Type} (f : String → α) (st : List (String × α)) (filename : String) :
    α × List (String × α) × Bool :=
  match cacheLookup st filename with
  | some v => (v, st, false)
  | none => (f filename, (filename, f filename) :: st, true)

/-- The decorated `load_criteria`: `readOf` models `pd.read_excel` on a
fixed, unchanged file system (one read result per filename). -/
def cached_load_criteria (readOf : String → Except String DataFrame)
    (st : List (String × LoadResult)) (filename : String) :
    LoadResult × List (String × LoadResult) × Bool :=
  cache_data (fun fn => load_criteria (readOf fn)) st filename

/-- Every cache entry holds what the function returns for its key. -/
def CacheConsistent {α : Type} (f : String → α) (st : List (String × α)) : Prop :=
  ∀ p ∈ st, p.2 = f p.1

/-! ### The demonstration matrix of the end-to-end scenario -/

/-- A one-row criteria matrix: "Reduce Time to Diagnosis", marked `"x"` in
columns "HCP", "Launch" and "Awareness" (13 columns, in the A:M layout). -/
def demoMatrix : DataFrame :=
  ⟨["Strategic Imperative", "HCP", "Patient", "Caregiver", "ColE",
    "Launch", "Growth", "Mature", "Decline",
    "Awareness", "Consideration", "Decision", "Loyalty"],
   [[some "Reduce Time to Diagnosis", some "x", none, none, none,
     some "x", none, none, none, some "x", none, none, none]]⟩

/-- A small second sheet with duplicate and missing "Differentiator"
cells, for concrete witnesses. -/
def demoSheet2 : DataFrame :=
  ⟨["Differentiator"], [[some "Oral dosing"], [some "Fast onset"], [some "Oral dosing"], [none]]⟩

/-- A third sheet holding a tactic row for "Improve Adherence" only, for
concrete witnesses. -/
def demoSheet3 : DataFrame :=
  ⟨["Strategic Imperative", "Patient & Caregiver", "HCP Engagement"],
   [[some "Improve Adherence", some "Patient app", some "Peer webinar"]]⟩

/-! ### Step 3: the differentiator lookup (src/main.py lines 330-338) -/

/-- `Series.unique()`'s first-seen deduplication, with an accumulator of
values already emitted. -/
def uniqueAux : List String → List String → List String
  | [], _ => []
  | x :: xs, seen =>
    if x ∈ seen then uniqueAux xs seen else x :: uniqueAux xs (x :: seen)

/-- `Series.unique().tolist()`: distinct values in first-seen order. -/
def uniqueFirstSeen (xs : List String) : List String := uniqueAux xs []

/-- The first-seen deduplication stated as a recursion (each head survives,
its later duplicates are filtered away); used to characterise
`uniqueFirstSeen`. -/
def dedupFirstSpec : List String → List String
  | [] => []
  | x :: xs => x :: dedupFirstSpec (xs.filter (fun y => y ≠ x))
termination_by l => l.length
decreasing_by
  simp only [List.length_cons]
  exact Nat.lt_succ_of_le (List.length_filter_le _ _)

/-- Embedding of the Step 3 lookup
`sheet2["Differentiator"].dropna().unique().tolist()`, guarded by the
column check (`none` models `st.error` + `st.stop`). -/
def product_diff_options (sheet2 : DataFrame) : Option (List String) :=
  match colIdx sheet2.columns "Differentiator" with
  | none => none
  | some i => some (uniqueFirstSeen (sheet2.rows.filterMap (fun r => (r.get? i).join)))

/-! ### Character indices for the brace-span characterisation -/

/-- Index of the first occurrence of `c`. -/
def firstIdxOf (c : Char) : List Char → Option Nat
  | [] => none
  | x :: xs => if x = c then some 0 else (firstIdxOf c xs).map (· + 1)

/-- Index of the last occurrence of `c`. -/
def lastIdxOf (c : Char) : List Char → Option Nat
  | [] => none
  | x :: xs =>
    match lastIdxOf c xs with
    | some k => some (k + 1)
    | none => if x = c then some 0 else none

/-! ### Helper lemmas -/

theorem colIdx_eq_none {l : List String} {t : String} :
    colIdx l t = none ↔ t ∉ l := by
  induction l with
  | nil => simp [colIdx]
  | cons c cs ih =>
    simp only [colIdx, List.mem_cons]
    by_cases hc : c = t
    · simp [hc]
    · rw [if_neg hc, Option.map_eq_none', ih]
      constructor
      · intro h hm
        rcases hm with h1 | h2
        · exact hc h1.symm
        · exact h h2
      · intro h hm
        exact h (Or.inr hm)

theorem colIdx_of_mem {l : List String} {t : String} (h : t ∈ l) :
    ∃ i, colIdx l t = some i := by
  cases hc : colIdx l t with
  | none => exact absurd h (colIdx_eq_none.mp hc)
  | some i => exact ⟨i, rfl⟩

theorem filterMap_filter_fuse {α β : Type} (p : α → Bool) (f : α → Option β)
    (l : List α) :
    (l.filter p).filterMap f = l.filterMap (fun a => if p a then f a else none) := by
  induction l with
  | nil => rfl
  | cons x xs ih =>
    by_cases hx : p x
    · rw [List.filter_cons_of_pos hx, List.filterMap_cons, List.filterMap_cons,
        if_pos hx, ih]
    · rw [List.filter_cons_of_neg hx, List.filterMap_cons, if_neg hx, ih]

/-! ### Claim theorems -/

/-- C1: for every matrix and every role, lifecycle, journey that are exact
column names, `filter_strategic_imperatives` reports no error and returns
exactly the "Strategic Imperative" cells of the rows whose three named
cells, lowered as strings, equal `"x"` — missing identity cells dropped,
source row order preserved, no deduplication (the result is a single
`filterMap` over the source rows).  In particular, on the one-row demo
matrix marked `"x"` in "HCP", "Launch" and "Awareness", that triple yields
`["Reduce Time to Diagnosis"]` and the other valid role ("Patient") yields
`[]`. -/
theorem filter_strategic_imperatives_correct (df : DataFrame)
    (role lifecycle journey : String) (i : Nat)
    (hr : role ∈ df.columns) (hl : lifecycle ∈ df.columns) (hj : journey ∈ df.columns)
    (hsi : colIdx df.columns "Strategic Imperative" = some i) :
    filter_strategic_imperatives df role lifecycle journey =
      (none, df.rows.filterMap (fun r =>
        if rowMarked df role lifecycle journey r then (r.get? i).join else none)) ∧
    filter_strategic_imperatives demoMatrix "HCP" "Launch" "Awareness" =
      (none, ["Reduce Time to Diagnosis"]) ∧
    filter_strategic_imperatives demoMatrix "Patient" "Launch" "Awareness" =
      (none, []) := by
  refine ⟨?_, by decide, by decide⟩
  unfold filter_strategic_imperatives
  rw [if_pos ⟨hr, hl, hj⟩, hsi]
  exact congrArg (Prod.mk none)
    (filterMap_filter_fuse (rowMarked df role lifecycle journey)
      (fun r => (r.get? i).join) df.rows)

/-- Witness for C1 at the demo matrix and the triple (HCP, Launch,
Awareness). -/
theorem filter_strategic_imperatives_correct_witness :
    filter_strategic_imperatives demoMatrix "HCP" "Launch" "Awareness" =
      (none, demoMatrix.rows.filterMap (fun r =>
        if rowMarked demoMatrix "HCP" "Launch" "Awareness" r then (r.get? 0).join
        else none)) :=
  (filter_strategic_imperatives_correct demoMatrix "HCP" "Launch" "Awareness" 0
    (by decide) (by decide) (by decide) (by decide)).1

/-- C5: `filter_strategic_imperatives` with a role, lifecycle or journey
value that is not a column name reports `SchemaMismatch` and returns the
empty list; with the identity column itself absent the caught exception is
reported and the empty list returned; and every reported error comes with
the empty list (the function is total — no input raises uncaught). -/
theorem filter_strategic_imperatives_error_handling (df : DataFrame)
    (role lifecycle journey : String) :
    (¬(role ∈ df.columns ∧ lifecycle ∈ df.columns ∧ journey ∈ df.columns) →
      filter_strategic_imperatives df role lifecycle journey =
        (some .SchemaMismatch, [])) ∧
    (role ∈ df.columns ∧ lifecycle ∈ df.columns ∧ journey ∈ df.columns →
      "Strategic Imperative" ∉ df.columns →
      filter_strategic_imperatives df role lifecycle journey =
        (some .FilterException, [])) ∧
    (∀ err, (filter_strategic_imperatives df role lifecycle journey).1 = some err →
      (filter_strategic_imperatives df role lifecycle journey).2 = []) := by
  refine ⟨?_, ?_, ?_⟩
  · intro h
    unfold filter_strategic_imperatives
    rw [if_neg h]
  · intro h hsi
    unfold filter_strategic_imperatives
    rw [if_pos h, colIdx_eq_none.mpr hsi]
  · intro err
    unfold filter_strategic_imperatives
    by_cases h : role ∈ df.columns ∧ lifecycle ∈ df.columns ∧ journey ∈ df.columns
    · rw [if_pos h]
      cases hc : colIdx df.columns "Strategic Imperative" with
      | none => intro _; rfl
      | some i => intro hx; exact Option.noConfusion hx
    · rw [if_neg h]
      intro _; rfl

/-- Witness for C5: a role absent from the demo matrix's columns is
reported as a schema mismatch with an empty result. -/
theorem filter_strategic_imperatives_error_handling_witness :
    filter_strategic_imperatives demoMatrix "Payer" "Launch" "Awareness" =
      (some .SchemaMismatch, []) :=
  (filter_strategic_imperatives_error_handling demoMatrix "Payer" "Launch"
    "Awareness").1 (by decide)

/-- C4: `load_criteria` yields the fatal `loadError` (the all-`None`
quadruple, after which rendering stops) whenever the A:M-restricted first
sheet cannot be parsed or has fewer than 13 columns; on success the role
axis is header columns 1–3 with every "Caregiver" entry excluded (no
member of the role axis lowers to "caregiver"), the lifecycle axis is
header columns 5–8, and the journey axis is header columns 9–12. -/
theorem load_criteria_correct :
    (∀ e, load_criteria (.error e) = .loadError) ∧
    (∀ df, df.columns.length < 13 → load_criteria (.ok df) = .loadError) ∧
    (∀ df, 13 ≤ df.columns.length →
      load_criteria (.ok df) =
        .loaded
          (((df.columns.drop 1).take 3).filter (fun opt => pyLower opt ≠ "caregiver"))
          ((df.columns.drop 5).take 4) ((df.columns.drop 9).take 4) df) ∧
    (∀ df ro lo jo m, load_criteria (.ok df) = .loaded ro lo jo m →
      ∀ c ∈ ro, pyLower c ≠ "caregiver") := by
  refine ⟨fun e => rfl, ?_, ?_, ?_⟩
  · intro df h
    simp only [load_criteria]
    rw [if_pos h]
  · intro df h
    simp only [load_criteria]
    rw [if_neg (Nat.not_lt.mpr h)]
  · intro df ro lo jo m h c hc
    simp only [load_criteria] at h
    by_cases hlen : df.columns.length < 13
    · rw [if_pos hlen] at h
      exact LoadResult.noConfusion h
    · rw [if_neg hlen] at h
      injection h with h1 h2 h3 h4
      subst h1
      exact of_decide_eq_true (List.mem_filter.mp hc).2

/-- Witness for C4 at concrete inputs: a 3-column sheet is a load error,
and the demo matrix loads with "Caregiver" excluded from the role axis. -/
theorem load_criteria_correct_witness :
    load_criteria (.ok (⟨["A", "B", "C"], []⟩ : DataFrame)) = .loadError ∧
    load_criteria (.ok demoMatrix) =
      .loaded ["HCP", "Patient"] ["Launch", "Growth", "Mature", "Decline"]
        ["Awareness", "Consideration", "Decision", "Loyalty"] demoMatrix :=
  ⟨load_criteria_correct.2.1 ⟨["A", "B", "C"], []⟩ (by decide), by
    have h := load_criteria_correct.2.2.1 demoMatrix (by decide)
    rw [h]; decide⟩

/-- C8: the disease-state selection is never consulted by the imperative
filter — with the matrix and the non-placeholder role, lifecycle and
journey selections fixed, any two non-placeholder disease selections
produce identical Step 2 output (the disease value only gates progression,
identically for both). -/
theorem disease_not_consulted (matrix_df : DataFrame)
    (role_selected lifecycle_selected journey_selected d1 d2 : String)
    (h1 : d1 ≠ disease_placeholder) (h2 : d2 ≠ disease_placeholder) :
    step2_strategic_options matrix_df role_selected lifecycle_selected journey_selected d1 =
      step2_strategic_options matrix_df role_selected lifecycle_selected journey_selected d2 := by
  unfold step2_strategic_options
  by_cases h : role_selected ≠ role_placeholder ∧ lifecycle_selected ≠ lifecycle_placeholder ∧
      journey_selected ≠ journey_placeholder
  · rw [if_pos ⟨h.1, h.2.1, h.2.2, h1⟩, if_pos ⟨h.1, h.2.1, h.2.2, h2⟩]
  · rw [if_neg fun hc => h ⟨hc.1, hc.2.1, hc.2.2.1⟩,
      if_neg fun hc => h ⟨hc.1, hc.2.1, hc.2.2.1⟩]

/-- Witness for C8: two concrete disease selections, identical output. -/
theorem disease_not_consulted_witness :
    step2_strategic_options demoMatrix "HCP" "Launch" "Awareness" "Diabetes" =
      step2_strategic_options demoMatrix "HCP" "Launch" "Awareness" "Cancer" :=
  disease_not_consulted demoMatrix "HCP" "Launch" "Awareness" "Diabetes" "Cancer"
    (by decide) (by decide)

/-- A cache hit returns what the function itself would return, provided
every cache entry holds the function's value for its key. -/
theorem cacheLookup_consistent {α : Type} {f : String → α} :
    ∀ st : List (String × α), CacheConsistent f st →
      ∀ {fn : String} {v : α}, cacheLookup st fn = some v → v = f fn := by
  intro st
  induction st with
  | nil => intro _ fn v hl; exact Option.noConfusion hl
  | cons p rest ih =>
    intro h fn v hl
    rcases p with ⟨k, w⟩
    simp only [cacheLookup] at hl
    by_cases hk : k = fn
    · rw [if_pos hk] at hl
      injection hl with hv
      have hw : w = f k := h ⟨k, w⟩ (List.mem_cons_self _ _)
      rw [← hv, hw, hk]
    · rw [if_neg hk] at hl
      exact ih (fun q hq => h q (List.mem_cons_of_mem _ hq)) hl

/-- C9: the decorated load is memoized per filename — given a consistent
cache, its result equals the unmemoized `load_criteria` of the read
(observational equivalence for a fixed, unchanged file), consistency is
preserved, an immediate second call with the same filename returns the
cached value with no fresh read and an unchanged cache, and a filename not
in the cache triggers a fresh read. -/
theorem cached_load_criteria_memoized (readOf : String → Except String DataFrame)
    (st : List (String × LoadResult)) (fn fn2 : String)
    (hconsist : CacheConsistent (fun fname => load_criteria (readOf fname)) st) :
    (cached_load_criteria readOf st fn).1 = load_criteria (readOf fn) ∧
    CacheConsistent (fun fname => load_criteria (readOf fname))
      (cached_load_criteria readOf st fn).2.1 ∧
    cached_load_criteria readOf (cached_load_criteria readOf st fn).2.1 fn =
      ((cached_load_criteria readOf st fn).1,
        (cached_load_criteria readOf st fn).2.1, false) ∧
    (cacheLookup st fn2 = none → (cached_load_criteria readOf st fn2).2.2 = true) := by
  refine ⟨?_, ?_, ?_, ?_⟩
  · unfold cached_load_criteria cache_data
    cases hl : cacheLookup st fn with
    | some v => exact cacheLookup_consistent st hconsist hl
    | none => rfl
  · unfold cached_load_criteria cache_data
    cases hl : cacheLookup st fn with
    | some v => exact hconsist
    | none =>
      intro p hp
      rcases List.mem_cons.mp hp with h1 | h2
      · rw [h1]
      · exact hconsist p h2
  · cases hl : cacheLookup st fn with
    | some v => simp [cached_load_criteria, cache_data, hl]
    | none => simp [cached_load_criteria, cache_data, hl, cacheLookup]
  · intro h2
    simp [cached_load_criteria, cache_data, h2]

/-- Witness for C9 on the empty cache: loading "test.xlsx" returns the
unmemoized result, and an uncached filename performs a fresh read. -/
theorem cached_load_criteria_memoized_witness :
    (cached_load_criteria (fun _ => .error "io") [] "test.xlsx").1 =
      load_criteria (.error "io") ∧
    (cached_load_criteria (fun _ => .error "io") [] "other.xlsx").2.2 = true :=
  ⟨(cached_load_criteria_memoized (fun _ => .error "io") [] "test.xlsx" "other.xlsx"
      (fun p hp => absurd hp (List.not_mem_nil p))).1,
    (cached_load_criteria_memoized (fun _ => .error "io") [] "test.xlsx" "other.xlsx"
      (fun p hp => absurd hp (List.not_mem_nil p))).2.2.2 rfl⟩

theorem filter_cons_true {α : Type} (p : α → Bool) (x : α) (xs : List α)
    (h : p x = true) : (x :: xs).filter p = x :: xs.filter p := by
  simp [List.filter, h]

theorem filter_cons_false {α : Type} (p : α → Bool) (x : α) (xs : List α)
    (h : p x = false) : (x :: xs).filter p = xs.filter p := by
  simp [List.filter, h]

theorem uniqueAux_sublist : ∀ (xs seen : List String), (uniqueAux xs seen).Sublist xs := by
  intro xs
  induction xs with
  | nil => intro seen; simp [uniqueAux]
  | cons x xs ih =>
    intro seen
    simp only [uniqueAux]
    by_cases hx : x ∈ seen
    · rw [if_pos hx]
      exact (ih seen).trans (List.sublist_cons_self x xs)
    · rw [if_neg hx]
      exact (ih (x :: seen)).cons₂ x

theorem uniqueAux_mem_not_seen :
    ∀ (xs seen : List String) (y : String), y ∈ uniqueAux xs seen → y ∉ seen := by
  intro xs
  induction xs with
  | nil => intro seen y hy; simp [uniqueAux] at hy
  | cons x xs ih =>
    intro seen y hy
    simp only [uniqueAux] at hy
    by_cases hx : x ∈ seen
    · rw [if_pos hx] at hy
      exact ih seen y hy
    · rw [if_neg hx] at hy
      rcases List.mem_cons.mp hy with h1 | h2
      · rw [h1]; exact hx
      · exact fun hm => ih (x :: seen) y h2 (List.mem_cons_of_mem _ hm)

theorem uniqueAux_nodup : ∀ (xs seen : List String), (uniqueAux xs seen).Nodup := by
  intro xs
  induction xs with
  | nil => intro seen; simp [uniqueAux]
  | cons x xs ih =>
    intro seen
    simp only [uniqueAux]
    by_cases hx : x ∈ seen
    · rw [if_pos hx]; exact ih seen
    · rw [if_neg hx]
      refine List.nodup_cons.mpr ⟨?_, ih (x :: seen)⟩
      intro hmem
      exact uniqueAux_mem_not_seen xs (x :: seen) x hmem (List.mem_cons_self _ _)

theorem uniqueAux_eq (xs : List String) :
    ∀ seen, uniqueAux xs seen = dedupFirstSpec (xs.filter (fun y => y ∉ seen)) := by
  induction xs with
  | nil => intro seen; simp [uniqueAux, dedupFirstSpec]
  | cons x xs ih =>
    intro seen
    by_cases hx : x ∈ seen
    · rw [show uniqueAux (x :: xs) seen = uniqueAux xs seen from by
        simp only [uniqueAux]; rw [if_pos hx]]
      rw [filter_cons_false _ _ _ (by simp [hx]), ih]
    · rw [show uniqueAux (x :: xs) seen = x :: uniqueAux xs (x :: seen) from by
        simp only [uniqueAux]; rw [if_neg hx]]
      rw [filter_cons_true _ _ _ (by simp [hx])]
      rw [show dedupFirstSpec (x :: xs.filter (fun y => y ∉ seen)) =
          x :: dedupFirstSpec ((xs.filter (fun y => y ∉ seen)).filter (fun y => y ≠ x))
        from by simp only [dedupFirstSpec]]
      congr 1
      rw [ih (x :: seen)]
      congr 1
      rw [List.filter_filter]
      apply List.filter_congr
      intro y _
      by_cases h1 : y = x <;> by_cases h2 : y ∈ seen <;> simp [h1, h2]

/-- C6: with a "Differentiator" column present, the Step 3 lookup returns
the distinct column values in first-seen order (the keep-first dedup of the
`NaN`-dropped column, hence a sublist of it — order preserved, no missing
entries), never containing a duplicate; with the column absent it fails
(reported, rendering halts). -/
theorem product_diff_options_correct (sheet2 : DataFrame) :
    ("Differentiator" ∉ sheet2.columns → product_diff_options sheet2 = none) ∧
    (∀ i, colIdx sheet2.columns "Differentiator" = some i →
      ∃ l, product_diff_options sheet2 = some l ∧
        l.Nodup ∧
        l.Sublist (sheet2.rows.filterMap (fun r => (r.get? i).join)) ∧
        l = dedupFirstSpec (sheet2.rows.filterMap (fun r => (r.get? i).join))) := by
  constructor
  · intro h
    unfold product_diff_options
    rw [colIdx_eq_none.mpr h]
  · intro i hi
    refine ⟨uniqueFirstSeen (sheet2.rows.filterMap (fun r => (r.get? i).join)),
      ?_, ?_, ?_, ?_⟩
    · unfold product_diff_options
      rw [hi]
    · exact uniqueAux_nodup (sheet2.rows.filterMap (fun r => (r.get? i).join)) []
    · exact uniqueAux_sublist (sheet2.rows.filterMap (fun r => (r.get? i).join)) []
    · have h := uniqueAux_eq (sheet2.rows.filterMap fun r => (r.get? i).join) []
      simpa [uniqueFirstSeen] using h

/-- Witness for C6 on a concrete sheet with a duplicate and a missing
cell. -/
theorem product_diff_options_correct_witness :
    ∃ l, product_diff_options demoSheet2 = some l ∧
      l.Nodup ∧
      l.Sublist (demoSheet2.rows.filterMap (fun r => (r.get? 0).join)) ∧
      l = dedupFirstSpec (demoSheet2.rows.filterMap (fun r => (r.get? 0).join)) :=
  (product_diff_options_correct demoSheet2).2 0 (by decide)

/-- C3: when the third sheet has a row whose "Strategic Imperative" cell
equals the chosen imperative by exact string equality, the loop body takes
the first such row and selects its "HCP Engagement" cell exactly when the
selected role is the literal string "HCP", and its "Patient & Caregiver"
cell for every other role string (unexpected or empty included). -/
theorem tactic_resolver_role_branch (sheet3 : DataFrame)
    (imperative role_selected : String) (selected_differentiators : List String)
    (respond : String → Except String String) (row : Row)
    (hrow : row ∈ sheet3.rows)
    (hcell : getCell sheet3 "Strategic Imperative" row = some imperative) :
    ∃ r rest, matchingRows sheet3 imperative = r :: rest ∧
      (role_selected = "HCP" →
        process_imperative sheet3 role_selected selected_differentiators respond imperative =
          (.recommendation imperative (getCell sheet3 "HCP Engagement" r)
            (generate_ai_output (cellAsStr (getCell sheet3 "HCP Engagement" r))
              selected_differentiators (respond imperative)), [imperative])) ∧
      (role_selected ≠ "HCP" →
        process_imperative sheet3 role_selected selected_differentiators respond imperative =
          (.recommendation imperative (getCell sheet3 "Patient & Caregiver" r)
            (generate_ai_output (cellAsStr (getCell sheet3 "Patient & Caregiver" r))
              selected_differentiators (respond imperative)), [imperative])) := by
  have hne : matchingRows sheet3 imperative ≠ [] := by
    intro h
    have hmem : row ∈ matchingRows sheet3 imperative := by
      unfold matchingRows
      refine List.mem_filter.mpr ⟨hrow, ?_⟩
      simp [hcell]
    rw [h] at hmem
    exact List.not_mem_nil _ hmem
  cases hm : matchingRows sheet3 imperative with
  | nil => exact absurd hm hne
  | cons r rest =>
    refine ⟨r, rest, rfl, ?_, ?_⟩
    · intro hrole
      simp only [process_imperative, hm]
      rw [if_pos hrole]
    · intro hrole
      simp only [process_imperative, hm]
      rw [if_neg hrole]

/-- Witness for C3 on the demo third sheet with the empty role string. -/
theorem tactic_resolver_role_branch_witness :
    ∃ r rest, matchingRows demoSheet3 "Improve Adherence" = r :: rest ∧
      ("" = "HCP" →
        process_imperative demoSheet3 "" [] (fun _ => .error "net") "Improve Adherence" =
          (.recommendation "Improve Adherence" (getCell demoSheet3 "HCP Engagement" r)
            (generate_ai_output (cellAsStr (getCell demoSheet3 "HCP Engagement" r))
              [] ((fun _ => (.error "net" : Except String String)) "Improve Adherence")),
            ["Improve Adherence"])) ∧
      ("" ≠ "HCP" →
        process_imperative demoSheet3 "" [] (fun _ => .error "net") "Improve Adherence" =
          (.recommendation "Improve Adherence" (getCell demoSheet3 "Patient & Caregiver" r)
            (generate_ai_output (cellAsStr (getCell demoSheet3 "Patient & Caregiver" r))
              [] ((fun _ => (.error "net" : Except String String)) "Improve Adherence")),
            ["Improve Adherence"])) :=
  tactic_resolver_role_branch demoSheet3 "Improve Adherence" "" []
    (fun _ => .error "net")
    [some "Improve Adherence", some "Patient app", some "Peer webinar"]
    (by decide) (by rfl)

/-- C7: on a successful Sheet 3 read with the required columns present, the
generation pass renders one item per selected imperative in selection
order; an imperative with no matching row renders the inline no-tactic
notice and triggers no generation call, and every other imperative is
still processed at its own position (per-item isolation). -/
theorem gen_plan_notfound_isolation (sheet3 : DataFrame) (role_selected : String)
    (selected_strategics selected_differentiators : List String)
    (respond : String → Except String String)
    (items : List RenderItem) (calls : List String)
    (hrun : gen_plan_pressed (.ok sheet3) role_selected selected_strategics
      selected_differentiators respond = some (items, calls)) :
    items.length = selected_strategics.length ∧
    (∀ k (hk : k < selected_strategics.length),
      items.get? k = some (process_imperative sheet3 role_selected
        selected_differentiators respond (selected_strategics.get ⟨k, hk⟩)).1) ∧
    (∀ k (hk : k < selected_strategics.length),
      matchingRows sheet3 (selected_strategics.get ⟨k, hk⟩) = [] →
        items.get? k = some (.noTacticInfo (selected_strategics.get ⟨k, hk⟩))) ∧
    (∀ imperative, imperative ∈ calls → matchingRows sheet3 imperative ≠ []) ∧
    (∀ imperative, imperative ∈ selected_strategics →
      matchingRows sheet3 imperative = [] → imperative ∉ calls) := by
  have hP : ∀ imp, matchingRows sheet3 imp = [] →
      process_imperative sheet3 role_selected selected_differentiators respond imp =
        (.noTacticInfo imp, []) := by
    intro imp h
    simp only [process_imperative, h]
  simp only [gen_plan_pressed] at hrun
  by_cases hcols : required_cols.all (fun c => sheet3.columns.contains c) = true
  · rw [if_pos hcols] at hrun
    have hpair := Option.some.inj hrun
    have h1 : (selected_strategics.map (process_imperative sheet3 role_selected
        selected_differentiators respond)).map Prod.fst = items := congrArg Prod.fst hpair
    have h2 : ((selected_strategics.map (process_imperative sheet3 role_selected
        selected_differentiators respond)).map Prod.snd).flatten = calls :=
      congrArg Prod.snd hpair
    have hget : ∀ k (hk : k < selected_strategics.length),
        items.get? k = some (process_imperative sheet3 role_selected
          selected_differentiators respond (selected_strategics.get ⟨k, hk⟩)).1 := by
      intro k hk
      rw [← h1, List.get?_map, List.get?_map, List.get?_eq_get hk]
      rfl
    have hcalls : ∀ imperative, imperative ∈ calls → matchingRows sheet3 imperative ≠ [] := by
      intro imp hmem hnil
      rw [← h2] at hmem
      rcases List.mem_flatten.mp hmem with ⟨l, hl, himp⟩
      rcases List.mem_map.mp hl with ⟨pr, hpr, hprl⟩
      rcases List.mem_map.mp hpr with ⟨a, ha, hpa⟩
      rw [← hprl, ← hpa] at himp
      cases hma : matchingRows sheet3 a with
      | nil =>
        rw [hP a hma] at himp
        exact List.not_mem_nil _ himp
      | cons r rest =>
        have hsnd : (process_imperative sheet3 role_selected
            selected_differentiators respond a).2 = [a] := by
          simp only [process_imperative, hma]
        rw [hsnd] at himp
        have : imp = a := by
          rcases List.mem_cons.mp himp with h | h
          · exact h
          · exact absurd h (List.not_mem_nil _)
        rw [this, hma] at hnil
        exact List.noConfusion hnil
    refine ⟨?_, hget, ?_, hcalls, ?_⟩
    · rw [← h1]
      simp [List.length_map]
    · intro k hk hnil
      rw [hget k hk, hP _ hnil]
    · intro imp _ hnil hmem
      exact hcalls imp hmem hnil
  · rw [if_neg hcols] at hrun
    exact Option.noConfusion hrun

/-- Witness for C7: with "Reduce Time to Diagnosis" absent from the demo
third sheet and "Improve Adherence" present, the first item is the inline
notice, no call is made for it, and the second imperative still proceeds. -/
theorem gen_plan_notfound_isolation_witness :
    ([RenderItem.noTacticInfo "Reduce Time to Diagnosis",
      RenderItem.recommendation "Improve Adherence" (some "Peer webinar")
        (some GenErr.RequestFailure, allSentinel)] : List RenderItem).get? 0 =
      some (.noTacticInfo "Reduce Time to Diagnosis") ∧
    "Reduce Time to Diagnosis" ∉ (["Improve Adherence"] : List String) :=
  ⟨(gen_plan_notfound_isolation demoSheet3 "HCP"
      ["Reduce Time to Diagnosis", "Improve Adherence"] [] (fun _ => .error "net")
      [RenderItem.noTacticInfo "Reduce Time to Diagnosis",
        RenderItem.recommendation "Improve Adherence" (some "Peer webinar")
          (some GenErr.RequestFailure, allSentinel)]
      ["Improve Adherence"] (by rfl)).2.2.1 0 (by decide) (by decide),
    (gen_plan_notfound_isolation demoSheet3 "HCP"
      ["Reduce Time to Diagnosis", "Improve Adherence"] [] (fun _ => .error "net")
      [RenderItem.noTacticInfo "Reduce Time to Diagnosis",
        RenderItem.recommendation "Improve Adherence" (some "Peer webinar")
          (some GenErr.RequestFailure, allSentinel)]
      ["Improve Adherence"] (by rfl)).2.2.2.2 "Reduce Time to Diagnosis"
      (by decide) (by decide)⟩

/-- C2: `generate_ai_output` always returns a record and never raises —
with no brace span in the stripped body it reports and returns the
all-sentinel record; with a span that fails to parse it reports and
returns the all-sentinel record; with a span that parses it returns the
parsed record (so the exact body `{"description":"d","cost":"c","timeframe":"t"}`
yields exactly that record); and any transport or service failure is
reported with the all-sentinel record returned. -/
theorem generate_ai_output_correct (tactic_text : String)
    (selected_differentiators : List String) (body e : String) :
    (searchBraceSpan (pyStrip body).data = none →
      generate_ai_output tactic_text selected_differentiators (.ok body) =
        (some .NoJsonFound, allSentinel)) ∧
    (∀ span, searchBraceSpan (pyStrip body).data = some span →
      json_loads (String.mk span) = none →
      generate_ai_output tactic_text selected_differentiators (.ok body) =
        (some .JsonDecodeError, allSentinel)) ∧
    (∀ span v, searchBraceSpan (pyStrip body).data = some span →
      json_loads (String.mk span) = some v →
      generate_ai_output tactic_text selected_differentiators (.ok body) = (none, v)) ∧
    generate_ai_output tactic_text selected_differentiators
        (.ok "\x7b\"description\":\"d\",\"cost\":\"c\",\"timeframe\":\"t\"\x7d") =
      (none, .obj [("description", .str "d"), ("cost", .str "c"), ("timeframe", .str "t")]) ∧
    generate_ai_output tactic_text selected_differentiators (.error e) =
      (some .RequestFailure, allSentinel) := by
  refine ⟨?_, ?_, ?_, by rfl, by rfl⟩
  · intro h
    simp only [generate_ai_output, h]
  · intro span h1 h2
    simp only [generate_ai_output, h1, h2]
  · intro span v h1 h2
    simp only [generate_ai_output, h1, h2]

/-- Witness for C2: a braceless body and a non-JSON braced body. -/
theorem generate_ai_output_correct_witness :
    generate_ai_output "t" [] (.ok "no braces here") = (some .NoJsonFound, allSentinel) ∧
    generate_ai_output "t" [] (.ok "\x7bnot json\x7d") =
      (some .JsonDecodeError, allSentinel) :=
  ⟨(generate_ai_output_correct "t" [] "no braces here" "e").1 (by rfl),
    (generate_ai_output_correct "t" [] "\x7bnot json\x7d" "e").2.1
      "\x7bnot json\x7d".data (by rfl) (by rfl)⟩

theorem takeToLastClose_eq_none {cs : List Char}
    (h : lastIdxOf braceClose cs = none) : takeToLastClose cs = none := by
  induction cs with
  | nil => rfl
  | cons x xs ih =>
    simp only [lastIdxOf] at h
    cases hx : lastIdxOf braceClose xs with
    | some k => rw [hx] at h; exact Option.noConfusion h
    | none =>
      rw [hx] at h
      simp only [takeToLastClose, ih hx]
      by_cases hxc : x = braceClose
      · rw [if_pos hxc] at h; exact Option.noConfusion h
      · rw [if_neg hxc]

theorem takeToLastClose_eq_some {cs : List Char} {j : Nat}
    (h : lastIdxOf braceClose cs = some j) :
    takeToLastClose cs = some (cs.take (j + 1)) := by
  induction cs generalizing j with
  | nil => exact Option.noConfusion h
  | cons x xs ih =>
    simp only [lastIdxOf] at h
    cases hx : lastIdxOf braceClose xs with
    | some k =>
      rw [hx] at h
      injection h with hj
      subst hj
      simp only [takeToLastClose, ih hx]
      rfl
    | none =>
      rw [hx] at h
      by_cases hxc : x = braceClose
      · rw [if_pos hxc] at h
        injection h with hj
        subst hj
        simp only [takeToLastClose, takeToLastClose_eq_none hx]
        rw [if_pos hxc]
        rfl
      · rw [if_neg hxc] at h; exact Option.noConfusion h

/-- C10: the brace extraction is maximal — whenever the text has an
opening brace at first index `i` and its last closing brace at index
`j > i`, the regex match is the span from `i` through `j` (first `{` to
last `}`); consequently a body holding two disjoint JSON objects extracts
a span that is not valid JSON and the generator returns the all-sentinel
record. -/
theorem brace_extraction_maximal (cs : List Char) (i j : Nat)
    (hfirst : firstIdxOf braceOpen cs = some i)
    (hlast : lastIdxOf braceClose cs = some j) (hij : i < j) :
    searchBraceSpan cs = some ((cs.drop i).take (j + 1 - i)) ∧
    generate_ai_output "tactic" [] (.ok "\x7b\"a\":1\x7d text \x7b\"b\":2\x7d") =
      (some .JsonDecodeError, allSentinel) := by
  refine ⟨?_, by rfl⟩
  induction cs generalizing i j with
  | nil => exact Option.noConfusion hfirst
  | cons x xs ih =>
    simp only [firstIdxOf] at hfirst
    by_cases hx : x = braceOpen
    · rw [if_pos hx] at hfirst
      injection hfirst with hi
      subst hi
      simp only [lastIdxOf] at hlast
      cases hk : lastIdxOf braceClose xs with
      | some k =>
        rw [hk] at hlast
        injection hlast with hj
        subst hj
        simp only [searchBraceSpan]
        rw [if_pos hx, takeToLastClose_eq_some hk]
        rfl
      | none =>
        rw [hk] at hlast
        by_cases hxc : x = braceClose
        · rw [if_pos hxc] at hlast
          injection hlast with hj
          subst hj
          exact absurd hij (Nat.lt_irrefl 0)
        · rw [if_neg hxc] at hlast
          exact Option.noConfusion hlast
    · rw [if_neg hx] at hfirst
      cases hf : firstIdxOf braceOpen xs with
      | none => rw [hf] at hfirst; exact Option.noConfusion hfirst
      | some i0 =>
        rw [hf] at hfirst
        injection hfirst with hi
        subst hi
        simp only [lastIdxOf] at hlast
        cases hk : lastIdxOf braceClose xs with
        | some k =>
          rw [hk] at hlast
          injection hlast with hj
          subst hj
          have hik : i0 < k := Nat.lt_of_succ_lt_succ hij
          simp only [searchBraceSpan]
          rw [if_neg hx, ih i0 k hf hk hik]
          have harith : k + 1 + 1 - (i0 + 1) = k + 1 - i0 := by omega
          rw [List.drop_succ_cons, harith]
        | none =>
          rw [hk] at hlast
          by_cases hxc : x = braceClose
          · rw [if_pos hxc] at hlast
            injection hlast with hj
            exact absurd hij (by omega)
          · rw [if_neg hxc] at hlast
            exact Option.noConfusion hlast

/-- Witness for C10 on "ab{c{d}e}f": the span runs from the first brace
(index 2) through the last closing brace (index 8). -/
theorem brace_extraction_maximal_witness :
    searchBraceSpan "ab\x7bc\x7bd\x7de\x7df".data =
      some (("ab\x7bc\x7bd\x7de\x7df".data.drop 2).take 7) ∧
    generate_ai_output "tactic" [] (.ok "\x7b\"a\":1\x7d text \x7b\"b\":2\x7d") =
      (some .JsonDecodeError, allSentinel) :=
  brace_extraction_maximal "ab\x7bc\x7bd\x7de\x7df".data 2 8 (by rfl) (by rfl)
    (by decide)
